import Mathlib

/-!
Shallow embedding of the async resource hook layer of this repository
(`useApiCall` / `useApiPolling` / `useInfiniteScroll`) and of the REST
client core (`apiRequest`), together with theorems settling the claims
about them.

Modelling conventions
- React state cells (`useState`) become fields of an explicit state
  structure; a `setX(v)` call becomes a functional update of that field.
- A single completed invocation of an async function is modelled as a
  pure function from the pre-call state (plus the wrapped operation's
  result, supplied as an `Except`) to the post-call state plus an
  observable outcome.  `setLoading(true) ... finally setLoading(false)`
  therefore nets to `loading = false` in the post state; whether
  `setLoading(true)` ever ran is recorded as a separate observable.
- Closures: a `useCallback` function captures the state values of the
  render in which it was created.  When one hook function synchronously
  calls another from the same render (as `refresh` calls `fetchPage`),
  the callee's reads see the captured (pre-update) values while writes
  go to the live state.  This is made explicit by passing the captured
  state (`closure`) separately from the current state (`st`).
- JavaScript truthiness is modelled where the source relies on it:
  `Option` with `none` for `null`/`undefined`, `some 0` falsy for
  numbers, `some ""` falsy for strings; arrays (even empty) are truthy.
- Machine time (`Date.now()`) is a `Nat` instant passed explicitly.
-/

/-- Errors observable from a Call Controller: either the locally raised
`new Error('Authentication required')` or the wrapped operation's own
error. -/
inductive CallError (E : Type) where
  | authRequired
  | wrapped (e : E)
deriving DecidableEq, Repr

/-- State of one `useApiCall` instance: the `data`/`loading`/`error`
`useState` cells plus the `cacheRef.current` record
`{ timestamp, data, params }` (all three `null` initially). -/
structure CallState (V P E : Type) where
  data : Option V
  loading : Bool
  error : Option (CallError E)
  cacheTimestamp : Option Nat
  cacheData : Option V
  cacheParams : Option P
deriving DecidableEq, Repr

/-- Configuration of a `useApiCall` instance: the `cache` and `cacheTime`
options, the wrapped operation's `requiresAuth` flag, and the ambient
`isAuthenticated` signal read from the auth context. -/
structure CallConfig where
  cache : Bool
  cacheTime : Nat
  requiresAuth : Bool
  isAuthenticated : Bool
deriving DecidableEq, Repr

/-- Embedding of `isCacheValid(params)`.  Mirrors the source: returns
false when caching is disabled, when `timestamp` or `data` is falsy
(`null`, or `0` for the timestamp), when `Date.now() - timestamp >
cacheTime`, or when the JSON serialisations of the params differ
(structural equality, modelled by decidable equality on `P`). -/
def isCacheValid {V P E : Type} [DecidableEq P] (cfg : CallConfig)
    (st : CallState V P E) (now : Nat) (params : P) : Bool :=
  if cfg.cache = false then false
  else
    match st.cacheTimestamp, st.cacheData with
    | some ts, some _ =>
        if ts = 0 then false
        else if cfg.cacheTime < now - ts then false
        else decide (st.cacheParams = some params)
    | _, _ => false

/-- Modelled from the spec's words, for comparison with `isCacheValid`:
"a cache entry exists whose stored params are deeply equal to params and
whose age is within cacheTime".  Per the data model a cache entry exists
when its `timestamp` is an actual instant (a positive clock reading) and
its `data` is present. -/
def cacheHitSpec {V P E : Type} [DecidableEq P] (st : CallState V P E)
    (now : Nat) (cacheTime : Nat) (params : P) : Bool :=
  match st.cacheTimestamp, st.cacheData with
  | some ts, some _ =>
      decide (0 < ts) && decide (now - ts ≤ cacheTime)
        && decide (st.cacheParams = some params)
  | _, _ => false

/-- Observables of one completed `execute(...params)` call: the post
state, the resolved value (`none` models resolving to `undefined`), the
re-raised error if any, whether the wrapped operation was invoked,
whether `setLoading(true)` ever ran, and which callbacks fired. -/
structure ExecResult (V P E : Type) where
  state : CallState V P E
  returned : Option V
  thrown : Option (CallError E)
  invoked : Bool
  loadingSet : Bool
  onSuccessCalled : Bool
  onErrorCalled : Bool
deriving DecidableEq, Repr

/-- Embedding of `execute(...params)` for one completed call.  `op` is
the result the wrapped operation would produce if invoked.  Branches in
source order: the authentication gate, the cache check, then the
invocation with success/failure handling and the `finally` clearing of
`loading`. -/
def execute {V P E : Type} [DecidableEq P] (cfg : CallConfig)
    (st : CallState V P E) (now : Nat) (params : P) (op : Except E V) :
    ExecResult V P E :=
  if cfg.requiresAuth && !cfg.isAuthenticated then
    { state := { st with error := some .authRequired }
      returned := none, thrown := none, invoked := false
      loadingSet := false, onSuccessCalled := false, onErrorCalled := true }
  else if isCacheValid cfg st now params then
    { state := { st with data := st.cacheData }
      returned := st.cacheData, thrown := none, invoked := false
      loadingSet := false, onSuccessCalled := false, onErrorCalled := false }
  else
    match op with
    | .ok v =>
        { state :=
            { st with
              data := some v
              error := none
              loading := false
              cacheTimestamp := if cfg.cache then some now else st.cacheTimestamp
              cacheData := if cfg.cache then some v else st.cacheData
              cacheParams := if cfg.cache then some params else st.cacheParams }
          returned := some v, thrown := none, invoked := true
          loadingSet := true, onSuccessCalled := true, onErrorCalled := false }
    | .error e =>
        { state := { st with error := some (.wrapped e), loading := false }
          returned := none, thrown := some (.wrapped e), invoked := true
          loadingSet := true, onSuccessCalled := false, onErrorCalled := true }

/-- The cache-relevant fields of a Call Controller state, for frame
statements. -/
def cacheOf {V P E : Type} (st : CallState V P E) :
    Option Nat × Option V × Option P :=
  (st.cacheTimestamp, st.cacheData, st.cacheParams)

/-- With caching enabled, the source's validity check coincides with the
spec-side notion of a matching, unexpired cache entry. -/
lemma isCacheValid_eq_spec {V P E : Type} [DecidableEq P] (cfg : CallConfig)
    (st : CallState V P E) (now : Nat) (params : P) (hc : cfg.cache = true) :
    isCacheValid cfg st now params = cacheHitSpec st now cfg.cacheTime params := by
  unfold isCacheValid cacheHitSpec
  rcases hts : st.cacheTimestamp with _ | ts <;>
    rcases hd : st.cacheData with _ | d <;> simp [hc]
  rw [Bool.eq_iff_iff]
  simp only [Bool.and_eq_true, Bool.not_eq_true', decide_eq_true_eq,
    decide_eq_false_iff_not]
  constructor
  · rintro ⟨h0, hle, hp⟩
    exact ⟨⟨by omega, by omega⟩, hp⟩
  · rintro ⟨⟨h0, hle⟩, hp⟩
    exact ⟨by omega, by omega, hp⟩

/-- State of one `useInfiniteScroll` instance: the `items`/`page`/
`hasMore`/`loading`/`error` `useState` cells. -/
structure PageState (I E : Type) where
  items : List I
  page : Nat
  hasMore : Bool
  loading : Bool
  error : Option E
deriving DecidableEq, Repr

/-- Configuration of a `useInfiniteScroll` instance (`pageParam` and
`limitParam` only name the keys of the params object handed to the
operation and play no role in the state transitions). -/
structure PageConfig where
  initialPage : Nat
  pageSize : Nat
deriving DecidableEq, Repr

/-- Shape of a response as consumed by `fetchPage`: the optional `data`/
`items`/`results` fields, the response itself when it is an array
(`rawList`), and the optional `total`/`totalCount`/`count` fields. -/
structure PageResponse (I : Type) where
  data : Option (List I)
  items : Option (List I)
  results : Option (List I)
  rawList : Option (List I)
  total : Option Nat
  totalCount : Option Nat
  count : Option Nat
deriving DecidableEq, Repr

/-- JavaScript `a || b` on array-valued fields: any array (even empty)
is truthy, `null`/`undefined` is falsy. -/
def jsOrList {I : Type} : Option (List I) → Option (List I) → Option (List I)
  | some l, _ => some l
  | none, b => b

/-- JavaScript `a || b` on number-valued fields: `0` is falsy. -/
def jsOrNat : Option Nat → Option Nat → Option Nat
  | some n, b => if n = 0 then b else some n
  | none, b => b

/-- Embedding of `response.data || response.items || response.results ||
response` (the last falling back to the response itself when it is an
array). -/
def respItems {I : Type} (r : PageResponse I) : Option (List I) :=
  jsOrList r.data (jsOrList r.items (jsOrList r.results r.rawList))

/-- Embedding of `response.total || response.totalCount ||
response.count`. -/
def respTotal {I : Type} (r : PageResponse I) : Option Nat :=
  jsOrNat r.total (jsOrNat r.totalCount r.count)

/-- Observable outcome of one `fetchPage` call: guarded out without
invoking the operation, resolved with the computed `newItems` value, or
re-raised the operation's error. -/
inductive FetchOutcome (I E : Type) where
  | skipped
  | returned (v : Option (List I))
  | raised (e : E)
deriving DecidableEq, Repr

/-- Embedding of one completed `fetchPage(pageNumber)` call.  `closure`
holds the state values captured by the `useCallback` closure at the
render that created `fetchPage` (its `loading`/`hasMore` guard and the
`items.length` read in the `hasMore` recomputation use these), while
`st` is the live state the `setX` calls update.  For a plain call the
two coincide (`fetchPage` below); they differ when `refresh` updates
`hasMore` and then synchronously calls the already-created closure. -/
def fetchPageStep {I E : Type} (cfg : PageConfig) (closure : PageState I E)
    (st : PageState I E) (pageNumber : Nat) (op : Except E (PageResponse I)) :
    PageState I E × FetchOutcome I E :=
  if closure.loading || !closure.hasMore then (st, .skipped)
  else
    match op with
    | .error e => ({ st with error := some e, loading := false }, .raised e)
    | .ok resp =>
        let st0 := { st with error := none }
        match respItems resp with
        | some l =>
            if 0 < l.length then
              let st1 :=
                if pageNumber = cfg.initialPage then { st0 with items := l }
                else { st0 with items := st0.items ++ l }
              let newHasMore :=
                match respTotal resp with
                | some t =>
                    if t ≠ 0 then decide (closure.items.length + l.length < t)
                    else decide (cfg.pageSize ≤ l.length)
                | none => decide (cfg.pageSize ≤ l.length)
              ({ st1 with hasMore := newHasMore, page := pageNumber, loading := false },
               .returned (some l))
            else ({ st0 with hasMore := false, loading := false }, .returned (some l))
        | none => ({ st0 with hasMore := false, loading := false }, .returned none)

/-- A plain `fetchPage(pageNumber)` call: closure and live state agree. -/
def fetchPage {I E : Type} (cfg : PageConfig) (st : PageState I E)
    (pageNumber : Nat) (op : Except E (PageResponse I)) :
    PageState I E × FetchOutcome I E :=
  fetchPageStep cfg st st pageNumber op

/-- Embedding of `refresh()`: `setHasMore(true)` updates the live state,
then the `fetchPage` closure created in the same render is invoked with
`initialPage`; that closure still reads the pre-refresh `hasMore` in its
guard. -/
def refresh {I E : Type} (cfg : PageConfig) (st : PageState I E)
    (op : Except E (PageResponse I)) : PageState I E × FetchOutcome I E :=
  fetchPageStep cfg st { st with hasMore := true } cfg.initialPage op

/-- Embedding of `loadMore()`: fetches `page + 1` unless loading or
exhausted (in which case it resolves to `undefined`, modelled `none`). -/
def loadMore {I E : Type} (cfg : PageConfig) (st : PageState I E)
    (op : Except E (PageResponse I)) :
    Option (PageState I E × FetchOutcome I E) :=
  if !st.loading && st.hasMore then some (fetchPage cfg st (st.page + 1) op)
  else none

/-- State of one `useApiPolling` instance: the `data`/`loading`/`error`/
`isPolling` `useState` cells plus `timerRef` (`timer = true` models a
live interval handle in `timerRef.current`). -/
structure PollState (V E : Type) where
  data : Option V
  loading : Bool
  error : Option E
  isPolling : Bool
  timer : Bool
deriving DecidableEq, Repr

/-- Configuration of a `useApiPolling` instance: the `immediate` and
`stopOnError` options, the operation's `requiresAuth` flag and the
ambient `isAuthenticated` signal. -/
structure PollConfig where
  immediate : Bool
  stopOnError : Bool
  requiresAuth : Bool
  isAuthenticated : Bool
deriving DecidableEq, Repr

/-- Observable outcome of one `executePoll()` call: silently skipped by
the authentication gate, resolved with the operation's result, or
re-raised the operation's error. -/
inductive PollOutcome (V E : Type) where
  | skippedAuth
  | ok (v : V)
  | raised (e : E)
deriving DecidableEq, Repr

/-- Embedding of `clearTimer()`. -/
def clearTimer {V E : Type} (st : PollState V E) : PollState V E :=
  { st with timer := false }

/-- Embedding of `stopPolling()`. -/
def stopPolling {V E : Type} (st : PollState V E) : PollState V E :=
  clearTimer { st with isPolling := false }

/-- Embedding of one completed `executePoll()` call: the authentication
skip, then success (`setData`, cleared error) or failure (`setError`,
optional stop-on-error shutdown, then `throw err`), with the `finally`
clearing of `loading`. -/
def executePoll {V E : Type} (cfg : PollConfig) (st : PollState V E)
    (op : Except E V) : PollState V E × PollOutcome V E :=
  if cfg.requiresAuth && !cfg.isAuthenticated then (st, .skippedAuth)
  else
    match op with
    | .ok v => ({ st with data := some v, error := none, loading := false }, .ok v)
    | .error e =>
        let st1 := { st with error := some e, loading := false }
        if cfg.stopOnError then
          (clearTimer { st1 with isPolling := false }, .raised e)
        else (st1, .raised e)

/-- Embedding of `startPolling()` for one completed call: no-op when
already polling with a live timer; otherwise marks polling, runs
`executePoll` once when `immediate` is set, and arms the interval timer.
The returned `Nat` counts how many times `executePoll` was called. -/
def startPolling {V E : Type} (cfg : PollConfig) (st : PollState V E)
    (op : Except E V) : PollState V E × Nat :=
  if st.isPolling && st.timer then (st, 0)
  else
    let st1 := { st with isPolling := true }
    let p := if cfg.immediate then ((executePoll cfg st1 op).1, 1) else (st1, 0)
    ({ p.1 with timer := true }, p.2)

/-- Initial state of a `useApiPolling` instance:
`useState(immediate)` for `isPolling`, everything else empty. -/
def initPoll (V E : Type) (cfg : PollConfig) : PollState V E :=
  { data := none, loading := false, error := none
    isPolling := cfg.immediate, timer := false }

/-- Embedding of the dependency/mount effect (it runs after mount and on
dependency changes): when `isPolling`, clears any live timer and calls
`startPolling`; otherwise does nothing. -/
def mountEffect {V E : Type} (cfg : PollConfig) (st : PollState V E)
    (op : Except E V) : PollState V E × Nat :=
  if st.isPolling then startPolling cfg (clearTimer st) op else (st, 0)

/-- Events a mounted Poller instance can undergo after a given point: an
interval timer firing (which calls `executePoll` only when a live timer
exists), a user `startPolling`/`stopPolling` call, or a dependency-list
change re-running the effect. -/
inductive PollEvent (V E : Type) where
  | tick (op : Except E V)
  | start (op : Except E V)
  | depsChange (op : Except E V)
  | stop
deriving Repr

/-- Whether an event is an explicit `startPolling` call. -/
def PollEvent.isStart {V E : Type} : PollEvent V E → Bool
  | .start _ => true
  | _ => false

/-- One step of the Poller's evolution; the `Nat` counts `executePoll`
invocations performed by the step. -/
def pollStep {V E : Type} (cfg : PollConfig) (st : PollState V E) :
    PollEvent V E → PollState V E × Nat
  | .tick op => if st.timer then ((executePoll cfg st op).1, 1) else (st, 0)
  | .start op => startPolling cfg st op
  | .depsChange op =>
      if st.isPolling then startPolling cfg (clearTimer st) op else (st, 0)
  | .stop => (stopPolling st, 0)

/-- Runs a sequence of Poller events, accumulating the number of
`executePoll` invocations. -/
def runPoll {V E : Type} (cfg : PollConfig) (st : PollState V E) :
    List (PollEvent V E) → PollState V E × Nat
  | [] => (st, 0)
  | e :: es =>
      let p := pollStep cfg st e
      let q := runPoll cfg p.1 es
      (q.1, p.2 + q.2)

/-- A Poller that is not polling and holds no live timer is inert: no
sequence of events that avoids an explicit `startPolling` call executes
any tick or changes the state. -/
lemma runPoll_noStart {V E : Type} (cfg : PollConfig) :
    ∀ (evs : List (PollEvent V E)) (st : PollState V E),
      st.isPolling = false → st.timer = false →
      (∀ ev ∈ evs, ev.isStart = false) → runPoll cfg st evs = (st, 0) := by
  intro evs
  induction evs with
  | nil => intro st h1 h2 _; rfl
  | cons e es ih =>
      intro st h1 h2 hev
      have hstep : pollStep cfg st e = (st, 0) := by
        cases e with
        | tick op => simp [pollStep, h2]
        | start op =>
            exact absurd (hev _ (List.mem_cons_self _ _)) (by simp [PollEvent.isStart])
        | depsChange op => simp [pollStep, h1]
        | stop =>
            simp only [pollStep, stopPolling, clearTimer]
            cases st
            simp_all
      have hrest : runPoll cfg st es = (st, 0) :=
        ih st h1 h2 (fun ev hm => hev ev (List.mem_cons_of_mem _ hm))
      simp [runPoll, hstep, hrest]

/-- A server response as seen by `apiRequest` after the `fetch` call:
the HTTP status, whether the content type is JSON, and the `message`
field of the parsed JSON body when one is present. -/
structure HttpResponse where
  status : Nat
  isJson : Bool
  message : Option String
deriving DecidableEq, Repr

/-- Result of an `apiRequest` call: the `204` no-content success value
`{ success: true }`, a 2xx success carrying the parsed body, or a thrown
`APIError` with its message and status. -/
inductive ApiOutcome where
  | noContent
  | ok
  | apiError (message : String) (status : Nat)
deriving DecidableEq, Repr

/-- The Fetch specification's `response.ok`: status in the inclusive
range 200–299. -/
def respOk (s : Nat) : Bool :=
  decide (200 ≤ s) && decide (s ≤ 299)

/-- Embedding of `apiRequest`'s response handling.  The input is `none`
for a network-level `fetch` failure and `some resp` for a received
response.  The returned `Bool` records whether the stored auth token was
removed from local storage.  Branches in source order: `204`, then on
`!response.ok` the `401`/`403`/`404`/`429` cases, then the generic error
whose message is the JSON body's `message` field when that field is
truthy (a nonempty string), then the 2xx success; a non-`APIError`
exception is normalized to the status-`0` network error. -/
def apiRequest (r : Option HttpResponse) : ApiOutcome × Bool :=
  match r with
  | none => (.apiError "Network error: Could not connect to the server" 0, false)
  | some resp =>
      if resp.status = 204 then (.noContent, false)
      else if respOk resp.status then (.ok, false)
      else if resp.status = 401 then
        (.apiError "Unauthorized: Please log in again" 401, true)
      else if resp.status = 403 then
        (.apiError "Forbidden: You do not have permission" 403, false)
      else if resp.status = 404 then
        (.apiError "Not found: The requested resource does not exist" 404, false)
      else if resp.status = 429 then
        (.apiError "Too many requests: Please try again later" 429, false)
      else
        let msg :=
          if resp.isJson then
            match resp.message with
            | some m => if m = "" then "An error occurred with the API request" else m
            | none => "An error occurred with the API request"
          else "An error occurred with the API request"
        (.apiError msg resp.status, false)

/-- A cache-enabled configuration whose operation requires
authentication while the ambient signal is false. -/
def cfgAuthGated : CallConfig :=
  { cache := true, cacheTime := 5000, requiresAuth := true, isAuthenticated := false }

/-- A cache-enabled configuration with the authentication requirement
satisfied. -/
def cfgCached : CallConfig :=
  { cache := true, cacheTime := 5000, requiresAuth := false, isAuthenticated := true }

/-- A fresh Call Controller state: no data, no error, empty cache. -/
def emptyCallState : CallState Nat Nat String :=
  { data := none, loading := false, error := none
    cacheTimestamp := none, cacheData := none, cacheParams := none }

/-- The default Paginator configuration: `initialPage = 1`,
`pageSize = 10`. -/
def pageCfg10 : PageConfig := { initialPage := 1, pageSize := 10 }

/-- A fresh Paginator state. -/
def freshPageState : PageState Nat String :=
  { items := [], page := 1, hasMore := true, loading := false, error := none }

/-- A response carrying 10 items in its `data` field and `total = 25`. -/
def respPage1 : PageResponse Nat :=
  { data := some (List.range 10), items := none, results := none, rawList := none
    total := some 25, totalCount := none, count := none }

/-- A second page of 10 items with `total = 25`. -/
def respPage2 : PageResponse Nat :=
  { data := some ((List.range 10).map (· + 10)), items := none, results := none
    rawList := none, total := some 25, totalCount := none, count := none }

/-- A final page of 5 items with `total = 25`. -/
def respPage3 : PageResponse Nat :=
  { data := some ((List.range 5).map (· + 20)), items := none, results := none
    rawList := none, total := some 25, totalCount := none, count := none }

/-- State after fetching page 1 of the pageSize=10/total=25 scenario. -/
def scenState1 : PageState Nat String :=
  (fetchPage pageCfg10 freshPageState 1 (Except.ok respPage1)).1

/-- State after fetching page 2 of the scenario. -/
def scenState2 : PageState Nat String :=
  (fetchPage pageCfg10 scenState1 2 (Except.ok respPage2)).1

/-- State after fetching page 3 of the scenario. -/
def scenState3 : PageState Nat String :=
  (fetchPage pageCfg10 scenState2 3 (Except.ok respPage3)).1

/-- A Call Controller state holding a cache entry written at instant
1000 for params `7` with data `42`. -/
def cachedCallState : CallState Nat Nat String :=
  { data := some 42, loading := false, error := none
    cacheTimestamp := some 1000, cacheData := some 42, cacheParams := some 7 }

/-- C1 counterexample: with a cache-enabled controller whose operation
requires authentication while the ambient signal is false, `execute`
does not invoke the operation even though no matching cache entry
exists, so "invokes the operation iff no valid matching entry exists"
is false as stated. -/
theorem C1_counterexample :
    ¬ ((execute cfgAuthGated emptyCallState 1000 (7 : Nat)
          (Except.ok 42)).invoked = true ↔
        cacheHitSpec emptyCallState 1000 cfgAuthGated.cacheTime (7 : Nat) = false) := by
  decide

/-- C1 (amended): for every cache-enabled Call Controller whose call
passes the authentication gate, `execute(params)` invokes the wrapped
operation iff no cache entry exists whose stored params equal `params`
and whose age is within `cacheTime`; on such a hit it returns the cached
data and sets the `data` state to it without invoking the operation, and
a matching entry older than `cacheTime` leads to the operation being
invoked again. -/
theorem C1_cache_gating {V P E : Type} [DecidableEq P] (cfg : CallConfig)
    (st : CallState V P E) (now : Nat) (params : P) (op : Except E V)
    (hc : cfg.cache = true)
    (ha : cfg.requiresAuth = false ∨ cfg.isAuthenticated = true) :
    ((execute cfg st now params op).invoked = true ↔
       cacheHitSpec st now cfg.cacheTime params = false)
    ∧ (cacheHitSpec st now cfg.cacheTime params = true →
        (execute cfg st now params op).returned = st.cacheData
        ∧ (execute cfg st now params op).state.data = st.cacheData
        ∧ (execute cfg st now params op).invoked = false)
    ∧ (∀ ts, st.cacheTimestamp = some ts → 0 < ts →
        st.cacheParams = some params → cfg.cacheTime < now - ts →
        (execute cfg st now params op).invoked = true) := by
  have hauth : (cfg.requiresAuth && !cfg.isAuthenticated) = false := by
    rcases ha with h | h <;> simp [h]
  have hcv := isCacheValid_eq_spec cfg st now params hc
  refine ⟨?_, ?_, ?_⟩
  · rw [← hcv]
    cases hvalid : isCacheValid cfg st now params
    · simp [execute, hauth, hvalid]
      cases op <;> simp
    · simp [execute, hauth, hvalid]
  · intro hhit
    have hv : isCacheValid cfg st now params = true := by rw [hcv]; exact hhit
    simp [execute, hauth, hv]
  · intro ts hts h0 hp hexp
    have hvf : isCacheValid cfg st now params = false := by
      rw [hcv]
      unfold cacheHitSpec
      rw [hts]
      rcases hd : st.cacheData with _ | d <;> simp
      rintro - h
      omega
    simp [execute, hauth, hvf]
    cases op <;> simp

/-- C1 witness: on a controller holding a valid entry for params 7, the
amended equivalence instantiates. -/
theorem C1_cache_gating_witness :
    ((execute cfgCached cachedCallState 4000 (7 : Nat)
        (Except.ok 99)).invoked = true ↔
      cacheHitSpec cachedCallState 4000 cfgCached.cacheTime (7 : Nat) = false) :=
  (C1_cache_gating cfgCached cachedCallState 4000 7 (Except.ok 99) rfl
    (Or.inl rfl)).1

/-- C5: when the wrapped operation declares `requiresAuth` and the
ambient authentication signal is false, `execute` resolves to
`undefined`, sets `error` to the authentication-required error, invokes
the error callback, never invokes the wrapped operation and never sets
`loading`. -/
theorem C5_auth_fail_fast {V P E : Type} [DecidableEq P] (cfg : CallConfig)
    (st : CallState V P E) (now : Nat) (params : P) (op : Except E V)
    (hr : cfg.requiresAuth = true) (hi : cfg.isAuthenticated = false) :
    (execute cfg st now params op).returned = none
    ∧ (execute cfg st now params op).state.error = some CallError.authRequired
    ∧ (execute cfg st now params op).onErrorCalled = true
    ∧ (execute cfg st now params op).invoked = false
    ∧ (execute cfg st now params op).loadingSet = false := by
  simp [execute, hr, hi]

/-- C5 witness: the authentication gate fires on a concrete gated
configuration. -/
theorem C5_auth_fail_fast_witness :
    (execute cfgAuthGated emptyCallState 1000 (7 : Nat)
        (Except.ok 42)).returned = none
    ∧ (execute cfgAuthGated emptyCallState 1000 (7 : Nat)
        (Except.ok 42)).state.error = some CallError.authRequired
    ∧ (execute cfgAuthGated emptyCallState 1000 (7 : Nat)
        (Except.ok 42)).onErrorCalled = true
    ∧ (execute cfgAuthGated emptyCallState 1000 (7 : Nat)
        (Except.ok 42)).invoked = false
    ∧ (execute cfgAuthGated emptyCallState 1000 (7 : Nat)
        (Except.ok 42)).loadingSet = false :=
  C5_auth_fail_fast cfgAuthGated emptyCallState 1000 7 (Except.ok 42) rfl rfl

/-- C8: the cache entry is overwritten exactly on a successful
invocation with caching enabled; a cache hit, a failed invocation, the
authentication gate and a cache-disabled controller all leave the entry
(including its timestamp) intact, so a failed invocation does not
disturb the validity of the pre-existing entry for any later call. -/
theorem C8_cache_entry_frame {V P E : Type} [DecidableEq P] (cfg : CallConfig)
    (st : CallState V P E) (now : Nat) (params : P) (op : Except E V) :
    ((execute cfg st now params op).invoked = false →
       cacheOf (execute cfg st now params op).state = cacheOf st)
    ∧ (∀ e, op = Except.error e →
       cacheOf (execute cfg st now params op).state = cacheOf st)
    ∧ (cfg.cache = false →
       cacheOf (execute cfg st now params op).state = cacheOf st)
    ∧ (∀ v, op = Except.ok v → (execute cfg st now params op).invoked = true →
       cfg.cache = true →
       cacheOf (execute cfg st now params op).state = (some now, some v, some params))
    ∧ (isCacheValid cfg st now params = true →
       (execute cfg st now params op).state.cacheTimestamp = st.cacheTimestamp)
    ∧ (∀ e (now2 : Nat) (q : P), op = Except.error e →
       isCacheValid cfg (execute cfg st now params op).state now2 q
         = isCacheValid cfg st now2 q) := by
  have hcong : ∀ (st' : CallState V P E) (now2 : Nat) (q : P),
      st'.cacheTimestamp = st.cacheTimestamp → st'.cacheData = st.cacheData →
      st'.cacheParams = st.cacheParams →
      isCacheValid cfg st' now2 q = isCacheValid cfg st now2 q := by
    intro st' now2 q h1 h2 h3
    unfold isCacheValid
    simp only [h1, h2, h3]
  by_cases hA : (cfg.requiresAuth && !cfg.isAuthenticated) = true
  · have hexec : execute cfg st now params op =
        { state := { st with error := some .authRequired }
          returned := none, thrown := none, invoked := false
          loadingSet := false, onSuccessCalled := false, onErrorCalled := true } := by
      simp [execute, hA]
    refine ⟨?_, ?_, ?_, ?_, ?_, ?_⟩
    · intro _; simp [hexec, cacheOf]
    · intro e _; simp [hexec, cacheOf]
    · intro _; simp [hexec, cacheOf]
    · intro v _ hi _; rw [hexec] at hi; simp at hi
    · intro _; simp [hexec]
    · intro e now2 q _; rw [hexec]; exact hcong _ now2 q rfl rfl rfl
  · rw [Bool.not_eq_true] at hA
    by_cases hV : isCacheValid cfg st now params = true
    · have hexec : execute cfg st now params op =
          { state := { st with data := st.cacheData }
            returned := st.cacheData, thrown := none, invoked := false
            loadingSet := false, onSuccessCalled := false, onErrorCalled := false } := by
        simp [execute, hA, hV]
      refine ⟨?_, ?_, ?_, ?_, ?_, ?_⟩
      · intro _; simp [hexec, cacheOf]
      · intro e _; simp [hexec, cacheOf]
      · intro _; simp [hexec, cacheOf]
      · intro v _ hi _; rw [hexec] at hi; simp at hi
      · intro _; simp [hexec]
      · intro e now2 q _; rw [hexec]; exact hcong _ now2 q rfl rfl rfl
    · rw [Bool.not_eq_true] at hV
      cases op with
      | ok v =>
          have hexec : execute cfg st now params (Except.ok v) =
              { state :=
                  { st with
                    data := some v
                    error := none
                    loading := false
                    cacheTimestamp := if cfg.cache then some now else st.cacheTimestamp
                    cacheData := if cfg.cache then some v else st.cacheData
                    cacheParams := if cfg.cache then some params else st.cacheParams }
                returned := some v, thrown := none, invoked := true
                loadingSet := true, onSuccessCalled := true, onErrorCalled := false } := by
            simp [execute, hA, hV]
          refine ⟨?_, ?_, ?_, ?_, ?_, ?_⟩
          · intro hi; rw [hexec] at hi; simp at hi
          · intro e he; exact Except.noConfusion he
          · intro hcf; simp [hexec, cacheOf, hcf]
          · intro w hw _ hcf
            injection hw with hvw
            subst hvw
            simp [hexec, cacheOf, hcf]
          · intro hvv; simp [hV] at hvv
          · intro e now2 q he; exact Except.noConfusion he
      | error e0 =>
          have hexec : execute cfg st now params (Except.error e0) =
              { state := { st with error := some (.wrapped e0), loading := false }
                returned := none, thrown := some (.wrapped e0), invoked := true
                loadingSet := true, onSuccessCalled := false, onErrorCalled := true } := by
            simp [execute, hA, hV]
          refine ⟨?_, ?_, ?_, ?_, ?_, ?_⟩
          · intro hi; rw [hexec] at hi; simp at hi
          · intro e _; simp [hexec, cacheOf]
          · intro _; simp [hexec, cacheOf]
          · intro w hw; exact Except.noConfusion hw
          · intro hvv; simp [hV] at hvv
          · intro e now2 q _; rw [hexec]; exact hcong _ now2 q rfl rfl rfl

/-- C8 witness: a failed invocation on a cache-enabled controller leaves
the cache entry intact. -/
theorem C8_cache_entry_frame_witness :
    cacheOf (execute cfgCached cachedCallState 9000 (8 : Nat)
        (Except.error "boom")).state = cacheOf cachedCallState :=
  (C8_cache_entry_frame cfgCached cachedCallState 9000 8
    (Except.error "boom")).2.1 "boom" rfl

/-- A Paginator state with 20 accumulated items from two earlier pages. -/
def accumulatedPageState : PageState Nat String :=
  { items := List.range 20, page := 2, hasMore := true, loading := false, error := none }

/-- C2 counterexample: re-fetching `initialPage` on a Paginator that has
20 accumulated items replaces the items (10 accumulated after the fetch,
which is below the response's total of 25) yet sets `hasMore` to false,
because the source computes `items.length + newItems.length < total`
from the pre-fetch length even in the replace branch; so "hasMore equals
(length of the accumulated items after this fetch) < total" is false as
stated. -/
theorem C2_counterexample :
    (fetchPage pageCfg10 accumulatedPageState 1 (Except.ok respPage1)).1.items.length < 25
    ∧ (fetchPage pageCfg10 accumulatedPageState 1 (Except.ok respPage1)).1.hasMore = false := by
  decide

/-- C2 (amended): after a `fetchPage` call that passes the guard and
returns a nonempty page, if the response carries a known (nonzero)
total, `hasMore` equals (pre-fetch accumulated length + returned page
length) < total; when no total is present, `hasMore` equals (returned
page length) ≥ pageSize; and the scenario pageSize=10, total=25 fetching
pages 1, 2, 3 yields hasMore true, true, false with accumulated lengths
10, 20, 25. -/
theorem C2_hasMore_recompute {I E : Type} (cfg : PageConfig)
    (st : PageState I E) (pn : Nat) (resp : PageResponse I) (l : List I)
    (hl : st.loading = false) (hm : st.hasMore = true)
    (hi : respItems resp = some l) (hne : l ≠ []) :
    (∀ t, respTotal resp = some t → t ≠ 0 →
       (fetchPage cfg st pn (Except.ok resp)).1.hasMore
         = decide (st.items.length + l.length < t))
    ∧ ((respTotal resp = none ∨ respTotal resp = some 0) →
       (fetchPage cfg st pn (Except.ok resp)).1.hasMore
         = decide (cfg.pageSize ≤ l.length))
    ∧ (scenState1.hasMore = true ∧ scenState1.items.length = 10
       ∧ scenState2.hasMore = true ∧ scenState2.items.length = 20
       ∧ scenState3.hasMore = false ∧ scenState3.items.length = 25) := by
  have hlen : 0 < l.length := List.length_pos.mpr hne
  refine ⟨?_, ?_, ?_⟩
  · intro t ht hz
    unfold fetchPage fetchPageStep
    by_cases hp : pn = cfg.initialPage <;>
      simp [hl, hm, hi, hlen, ht, hz, hp]
  · intro h
    rcases h with h | h <;>
      · unfold fetchPage fetchPageStep
        by_cases hp : pn = cfg.initialPage <;>
          simp [hl, hm, hi, hlen, h, hp]
  · decide

/-- C2 witness: the amended total-known formula instantiates on the
scenario's first fetch. -/
theorem C2_hasMore_recompute_witness :
    (fetchPage pageCfg10 freshPageState 1 (Except.ok respPage1)).1.hasMore
      = decide (freshPageState.items.length + (List.range 10).length < 25) :=
  (C2_hasMore_recompute pageCfg10 freshPageState 1 respPage1 (List.range 10)
    rfl rfl rfl (by decide)).1 25 rfl (by decide)

/-- A Paginator whose list has been exhausted: `hasMore` is false. -/
def exhaustedPageState : PageState Nat String :=
  { items := [0, 1, 2], page := 2, hasMore := false, loading := false, error := none }

/-- A response carrying two fresh items and no total. -/
def freshItemsResp : PageResponse Nat :=
  { data := some [7, 8], items := none, results := none, rawList := none
    total := none, totalCount := none, count := none }

/-- C3 (code bug witnessed on the model): calling `refresh()` on a
Paginator whose `hasMore` is false is a no-op.  `refresh` runs
`setHasMore(true)` and then synchronously calls the `fetchPage` closure
created in the same render, whose `if (loading || !hasMore) return;`
guard still reads the stale captured `hasMore = false`; the operation is
never invoked and the accumulated items are not replaced by the
`initialPage` items, contradicting the refresh contract. -/
theorem C3_refresh_stale_hasMore :
    (refresh pageCfg10 exhaustedPageState (Except.ok freshItemsResp)).2
      = FetchOutcome.skipped
    ∧ (refresh pageCfg10 exhaustedPageState (Except.ok freshItemsResp)).1.items
      = [0, 1, 2]
    ∧ (refresh pageCfg10 exhaustedPageState (Except.ok freshItemsResp)).1.hasMore
      = true
    ∧ (refresh pageCfg10 exhaustedPageState (Except.ok freshItemsResp)).1.items
      ≠ [7, 8] := by
  decide

/-- C9: a `fetchPage` call (that passes the guard) whose response yields
an empty or missing item list changes only `hasMore` (to false), `error`
(cleared) and `loading`: the accumulated items and the page number are
unchanged, for any requested page number including `initialPage`; in
particular a `refresh` against a now-empty collection keeps the
previously accumulated items and the previous page value. -/
theorem C9_empty_page_frame {I E : Type} (cfg : PageConfig)
    (st : PageState I E) (pn : Nat) (resp : PageResponse I)
    (hl : st.loading = false) (hm : st.hasMore = true)
    (he : respItems resp = none ∨ respItems resp = some ([] : List I)) :
    (fetchPage cfg st pn (Except.ok resp)).1.hasMore = false
    ∧ (fetchPage cfg st pn (Except.ok resp)).1.error = none
    ∧ (fetchPage cfg st pn (Except.ok resp)).1.loading = false
    ∧ (fetchPage cfg st pn (Except.ok resp)).1.items = st.items
    ∧ (fetchPage cfg st pn (Except.ok resp)).1.page = st.page
    ∧ (refresh cfg st (Except.ok resp)).1.items = st.items
    ∧ (refresh cfg st (Except.ok resp)).1.page = st.page := by
  rcases he with h | h <;>
    · unfold fetchPage refresh fetchPageStep
      simp [hl, hm, h]

/-- An empty page response that nevertheless carries a total. -/
def emptyPageResp : PageResponse Nat :=
  { data := some [], items := none, results := none, rawList := none
    total := some 25, totalCount := none, count := none }

/-- C9 witness: an empty page leaves the 20 accumulated items and the
page number of a live Paginator untouched. -/
theorem C9_empty_page_frame_witness :
    (fetchPage pageCfg10 accumulatedPageState 1 (Except.ok emptyPageResp)).1.items
      = accumulatedPageState.items
    ∧ (fetchPage pageCfg10 accumulatedPageState 1 (Except.ok emptyPageResp)).1.page
      = accumulatedPageState.page
    ∧ (fetchPage pageCfg10 accumulatedPageState 1 (Except.ok emptyPageResp)).1.hasMore
      = false :=
  ⟨(C9_empty_page_frame pageCfg10 accumulatedPageState 1 emptyPageResp rfl rfl
      (Or.inr rfl)).2.2.2.1,
   (C9_empty_page_frame pageCfg10 accumulatedPageState 1 emptyPageResp rfl rfl
      (Or.inr rfl)).2.2.2.2.1,
   (C9_empty_page_frame pageCfg10 accumulatedPageState 1 emptyPageResp rfl rfl
      (Or.inr rfl)).1⟩

/-- A Poller configuration with `stopOnError` disabled and no
authentication requirement. -/
def pollCfgPlain : PollConfig :=
  { immediate := true, stopOnError := false, requiresAuth := false
    isAuthenticated := true }

/-- A Poller configuration with `stopOnError` enabled. -/
def pollCfgStop : PollConfig :=
  { immediate := true, stopOnError := true, requiresAuth := false
    isAuthenticated := true }

/-- A Poller configuration with `immediate` disabled. -/
def pollCfgLazy : PollConfig :=
  { immediate := false, stopOnError := false, requiresAuth := false
    isAuthenticated := true }

/-- A running Poller state with a live timer. -/
def idlePollState : PollState Nat String :=
  { data := none, loading := false, error := none, isPolling := true, timer := true }

/-- C4 counterexample: a failing `executePoll` tick does re-raise the
operation's error to its caller (the source ends its catch block with
`throw err`), so "stores the error in state but does not re-raise it to
its caller" is false as stated; only the interval scheduler ignores the
resulting rejection. -/
theorem C4_counterexample :
    (executePoll pollCfgPlain idlePollState (Except.error "boom")).2
      = PollOutcome.raised "boom" := by
  decide

/-- C4 (amended): when the wrapped operation fails, the Call
Controller's `execute`, the Paginator's `fetchPage` and the Poller's
`executePoll` all store the error in local state and re-raise it to the
caller; for interval-scheduled Poller ticks no caller awaits the
rejection, so the re-raise is observable only on direct calls. -/
theorem C4_error_propagation {V P E I : Type} [DecidableEq P]
    (cfg : CallConfig) (st : CallState V P E) (now : Nat) (params : P) (e : E)
    (ha : cfg.requiresAuth = false ∨ cfg.isAuthenticated = true)
    (hm : isCacheValid cfg st now params = false) :
    ((execute cfg st now params (Except.error e)).state.error
        = some (CallError.wrapped e)
      ∧ (execute cfg st now params (Except.error e)).thrown
        = some (CallError.wrapped e))
    ∧ (∀ (pcfg : PageConfig) (pst : PageState I E) (pn : Nat),
        pst.loading = false → pst.hasMore = true →
        (fetchPage pcfg pst pn (Except.error e)).1.error = some e
        ∧ (fetchPage pcfg pst pn (Except.error e)).2 = FetchOutcome.raised e)
    ∧ (∀ (qcfg : PollConfig) (qst : PollState V E),
        qcfg.requiresAuth = false ∨ qcfg.isAuthenticated = true →
        (executePoll qcfg qst (Except.error e)).1.error = some e
        ∧ (executePoll qcfg qst (Except.error e)).2 = PollOutcome.raised e) := by
  have hauth : (cfg.requiresAuth && !cfg.isAuthenticated) = false := by
    rcases ha with h | h <;> simp [h]
  refine ⟨?_, ?_, ?_⟩
  · simp [execute, hauth, hm]
  · intro pcfg pst pn hl hm2
    unfold fetchPage fetchPageStep
    simp [hl, hm2]
  · intro qcfg qst hqa
    have hq : (qcfg.requiresAuth && !qcfg.isAuthenticated) = false := by
      rcases hqa with h | h <;> simp [h]
    unfold executePoll
    by_cases hs : qcfg.stopOnError <;> simp [hq, hs, clearTimer]

/-- C4 witness: concrete failing calls on all three primitives. -/
theorem C4_error_propagation_witness :
    (execute cfgCached emptyCallState 1000 (7 : Nat)
        (Except.error "x")).thrown = some (CallError.wrapped "x")
    ∧ (fetchPage pageCfg10 freshPageState 1
        (Except.error "x")).2 = FetchOutcome.raised "x"
    ∧ (executePoll pollCfgPlain idlePollState
        (Except.error "x")).2 = PollOutcome.raised "x" :=
  ⟨(C4_error_propagation (I := Nat) cfgCached emptyCallState 1000 7 "x"
      (Or.inl rfl) (by decide)).1.2,
   ((C4_error_propagation (I := Nat) cfgCached emptyCallState 1000 7 "x"
      (Or.inl rfl) (by decide)).2.1 pageCfg10 freshPageState 1 rfl rfl).2,
   ((C4_error_propagation (I := Nat) cfgCached emptyCallState 1000 7 "x"
      (Or.inl rfl) (by decide)).2.2 pollCfgPlain idlePollState (Or.inl rfl)).2⟩

/-- C6: on a Poller with `stopOnError = true`, after any tick whose
operation fails (and which was not skipped by the authentication gate),
`isPolling` is false, the interval timer is released, and no sequence of
subsequent events avoiding an explicit `startPolling` call ever executes
another tick or re-arms the timer. -/
theorem C6_stopOnError_halts {V E : Type} (cfg : PollConfig)
    (st : PollState V E) (e : E)
    (hs : cfg.stopOnError = true)
    (ha : cfg.requiresAuth = false ∨ cfg.isAuthenticated = true) :
    (executePoll cfg st (Except.error e)).1.isPolling = false
    ∧ (executePoll cfg st (Except.error e)).1.timer = false
    ∧ ∀ evs : List (PollEvent V E), (∀ ev ∈ evs, ev.isStart = false) →
        runPoll cfg (executePoll cfg st (Except.error e)).1 evs
          = ((executePoll cfg st (Except.error e)).1, 0) := by
  have hq : (cfg.requiresAuth && !cfg.isAuthenticated) = false := by
    rcases ha with h | h <;> simp [h]
  have h1 : (executePoll cfg st (Except.error e)).1.isPolling = false := by
    simp [executePoll, hq, hs, clearTimer]
  have h2 : (executePoll cfg st (Except.error e)).1.timer = false := by
    simp [executePoll, hq, hs, clearTimer]
  exact ⟨h1, h2, fun evs hev => runPoll_noStart cfg evs _ h1 h2 hev⟩

/-- C6 witness: a concrete failing tick under `stopOnError` followed by
a timer tick, a stop and a dependency change executes nothing further. -/
theorem C6_stopOnError_halts_witness :
    (executePoll pollCfgStop idlePollState (Except.error "boom")).1.isPolling = false
    ∧ (executePoll pollCfgStop idlePollState (Except.error "boom")).1.timer = false
    ∧ runPoll pollCfgStop (executePoll pollCfgStop idlePollState (Except.error "boom")).1
        [PollEvent.tick (Except.ok 5), PollEvent.stop, PollEvent.depsChange (Except.ok 6)]
        = ((executePoll pollCfgStop idlePollState (Except.error "boom")).1, 0) :=
  ⟨(C6_stopOnError_halts pollCfgStop idlePollState "boom" rfl (Or.inl rfl)).1,
   (C6_stopOnError_halts pollCfgStop idlePollState "boom" rfl (Or.inl rfl)).2.1,
   (C6_stopOnError_halts pollCfgStop idlePollState "boom" rfl (Or.inl rfl)).2.2 _
     (by decide)⟩

/-- C10: with `immediate = true` (the default), `isPolling` is
initialized to true and the mount-time effect arms the interval timer
and runs exactly one immediate `executePoll` invocation with no user
call to `startPolling`; with `immediate = false`, `isPolling` starts
false, the mount-time effect does nothing, and no timer runs (and no
tick executes) until a `startPolling` event occurs. -/
theorem C10_immediate_mount {V E : Type} (cfg : PollConfig) (op : Except E V) :
    (cfg.immediate = true →
       (initPoll V E cfg).isPolling = true
       ∧ (mountEffect cfg (initPoll V E cfg) op).1.timer = true
       ∧ (mountEffect cfg (initPoll V E cfg) op).2 = 1)
    ∧ (cfg.immediate = false →
       (initPoll V E cfg).isPolling = false
       ∧ mountEffect cfg (initPoll V E cfg) op = (initPoll V E cfg, 0)
       ∧ ∀ evs : List (PollEvent V E), (∀ ev ∈ evs, ev.isStart = false) →
           runPoll cfg (initPoll V E cfg) evs = (initPoll V E cfg, 0)) := by
  constructor
  · intro hi
    refine ⟨by simp [initPoll, hi], ?_, ?_⟩
    · unfold mountEffect startPolling
      simp [initPoll, hi, clearTimer]
    · unfold mountEffect startPolling
      simp [initPoll, hi, clearTimer]
  · intro hi
    refine ⟨by simp [initPoll, hi], ?_, ?_⟩
    · unfold mountEffect
      simp [initPoll, hi]
    · intro evs hev
      exact runPoll_noStart cfg evs _ (by simp [initPoll, hi]) rfl hev

/-- C10 witness: concrete immediate and non-immediate Pollers. -/
theorem C10_immediate_mount_witness :
    ((initPoll Nat String pollCfgPlain).isPolling = true
     ∧ (mountEffect pollCfgPlain (initPoll Nat String pollCfgPlain)
          (Except.ok 1)).1.timer = true
     ∧ (mountEffect pollCfgPlain (initPoll Nat String pollCfgPlain)
          (Except.ok 1)).2 = 1)
    ∧ ((initPoll Nat String pollCfgLazy).isPolling = false
     ∧ mountEffect pollCfgLazy (initPoll Nat String pollCfgLazy) (Except.ok 1)
         = (initPoll Nat String pollCfgLazy, 0)) :=
  ⟨(C10_immediate_mount pollCfgPlain (Except.ok 1)).1 rfl,
   ((C10_immediate_mount pollCfgLazy (Except.ok 1)).2 rfl).1,
   ((C10_immediate_mount pollCfgLazy (Except.ok 1)).2 rfl).2.1⟩

/-- C7: the REST client's response handling: `204` yields success with
no payload; other 2xx yield success; `401` raises the authentication
error and removes the stored token; `403`, `404` and `429` raise the
forbidden, not-found and rate-limited errors; any other non-2xx raises a
generic error whose message is the JSON body's `message` field when a
truthy (nonempty) one is present and a default message otherwise; a
network-level failure raises the error with status code 0. -/
theorem C7_apiRequest_status_handling :
    (apiRequest none
       = (ApiOutcome.apiError "Network error: Could not connect to the server" 0,
          false))
    ∧ (∀ r : HttpResponse, r.status = 204 →
        apiRequest (some r) = (ApiOutcome.noContent, false))
    ∧ (∀ r : HttpResponse, respOk r.status = true → r.status ≠ 204 →
        apiRequest (some r) = (ApiOutcome.ok, false))
    ∧ (∀ r : HttpResponse, r.status = 401 →
        apiRequest (some r)
          = (ApiOutcome.apiError "Unauthorized: Please log in again" 401, true))
    ∧ (∀ r : HttpResponse, r.status = 403 →
        apiRequest (some r)
          = (ApiOutcome.apiError "Forbidden: You do not have permission" 403, false))
    ∧ (∀ r : HttpResponse, r.status = 404 →
        apiRequest (some r)
          = (ApiOutcome.apiError "Not found: The requested resource does not exist" 404,
             false))
    ∧ (∀ r : HttpResponse, r.status = 429 →
        apiRequest (some r)
          = (ApiOutcome.apiError "Too many requests: Please try again later" 429,
             false))
    ∧ (∀ (r : HttpResponse) (m : String), respOk r.status = false →
        r.status ≠ 204 → r.status ≠ 401 → r.status ≠ 403 → r.status ≠ 404 →
        r.status ≠ 429 → r.isJson = true → r.message = some m → m ≠ "" →
        apiRequest (some r) = (ApiOutcome.apiError m r.status, false))
    ∧ (∀ r : HttpResponse, respOk r.status = false →
        r.status ≠ 204 → r.status ≠ 401 → r.status ≠ 403 → r.status ≠ 404 →
        r.status ≠ 429 →
        (r.isJson = false ∨ r.message = none ∨ r.message = some "") →
        apiRequest (some r)
          = (ApiOutcome.apiError "An error occurred with the API request" r.status,
             false)) := by
  refine ⟨rfl, ?_, ?_, ?_, ?_, ?_, ?_, ?_, ?_⟩
  · intro r h
    simp [apiRequest, h]
  · intro r hok h204
    simp [apiRequest, hok, h204]
  · intro r h
    simp [apiRequest, respOk, h]
  · intro r h
    simp [apiRequest, respOk, h]
  · intro r h
    simp [apiRequest, respOk, h]
  · intro r h
    simp [apiRequest, respOk, h]
  · intro r m hok h204 h401 h403 h404 h429 hj hm hne
    simp [apiRequest, hok, h204, h401, h403, h404, h429, hj, hm, hne]
  · intro r hok h204 h401 h403 h404 h429 hcase
    rcases hcase with h | h | h <;>
      simp [apiRequest, hok, h204, h401, h403, h404, h429, h]

/-- C7 witness: concrete responses for the no-content, unauthorized and
generic-message cases. -/
theorem C7_apiRequest_status_handling_witness :
    apiRequest (some { status := 204, isJson := false, message := none })
      = (ApiOutcome.noContent, false)
    ∧ apiRequest (some { status := 401, isJson := true, message := some "nope" })
      = (ApiOutcome.apiError "Unauthorized: Please log in again" 401, true)
    ∧ apiRequest (some { status := 500, isJson := true, message := some "bad gateway" })
      = (ApiOutcome.apiError "bad gateway" 500, false) :=
  ⟨C7_apiRequest_status_handling.2.1 _ rfl,
   C7_apiRequest_status_handling.2.2.2.1 _ rfl,
   C7_apiRequest_status_handling.2.2.2.2.2.2.2.1 _ "bad gateway" (by decide)
     (by decide) (by decide) (by decide) (by decide) (by decide) rfl rfl
     (by decide)⟩
